import Mathlib

/-!
Verification of the agentic data-analysis dashboard frontend.

This file shallowly embeds the client-side logic of the repository:
the Next.js API proxy route for table information
(`app/api/tables/[tableName]/route.ts`), the chat session state
(`providers/chat-provider.tsx`), the chat send handler and the
visualization field resolution (`components/chat/chat-interface.tsx`),
and the report-generation trigger (`app/reports/page.tsx`).
JavaScript values that matter to the embedded control flow (string
truthiness in `||` chains and `if (x)` tests, `Array.isArray`,
`Object.keys` ordering) are modelled explicitly.
-/

namespace DataDash

/-- A JSON value, as relayed by the proxy routes. -/
inductive Json where
  | null : Json
  | bool (b : Bool) : Json
  | num (n : Int) : Json
  | str (s : String) : Json
  | arr (items : List Json) : Json
  | obj (fields : List (String × Json)) : Json

/-- Outcome of the proxy's `fetch` to the backend: either a response with a
status code and a (parsed) JSON body, or a network-level failure. -/
inductive FetchOutcome where
  | success (status : Nat) (body : Json)
  | failure


/-- `Response.ok` in the Fetch API: status in the inclusive range 200–299. -/
def respOk (status : Nat) : Bool := 200 ≤ status && status ≤ 299

/-- The fixed error envelope body built by the table-information route's
catch block: `{ error: 'Failed to fetch table information' }`. -/
def tableInfoErrorBody : Json :=
  Json.obj [("error", Json.str "Failed to fetch table information")]

/-- `GET` handler of `app/api/tables/[tableName]/route.ts`: forward the
backend body on success (HTTP 200 via `NextResponse.json(data)`), and on
any failure (thrown on `!response.ok`, or the fetch rejecting) return the
fixed error envelope with status 500. Result is (status, body). -/
def tableInfoGET (backend : FetchOutcome) : Nat × Json :=
  match backend with
  | FetchOutcome.failure => (500, tableInfoErrorBody)
  | FetchOutcome.success status body =>
      if respOk status then (200, body) else (500, tableInfoErrorBody)

/-- `ChatMessage.role`: the provider uses the literals `"user"` and `"ai"`
(the spec calls the latter the assistant role). -/
inductive Role where
  | user : Role
  | ai : Role
deriving DecidableEq, Repr

/-- Chart kind tag of a visualization payload. -/
inductive ChartType where
  | bar : ChartType
  | line : ChartType
  | pie : ChartType
deriving DecidableEq, Repr

/-- A primitive JSON literal, the cell values of visualization rows. -/
inductive JLit where
  | str (s : String) : JLit
  | num (n : Int) : JLit
  | bool (b : Bool) : JLit
  | null : JLit
deriving DecidableEq, Repr

/-- A visualization row object: its own enumerable properties in
`Object.keys` order, as key/value pairs. -/
def Row := List (String × JLit)
deriving DecidableEq, Repr

/-- The `data` field of a visualization payload as received from the
backend: `any`, so either a JS array of rows or any non-array value. -/
inductive VizData where
  | arr (rows : List Row) : VizData
  | str (s : String) : VizData
  | num (n : Int) : VizData
  | bool (b : Bool) : VizData
  | null : VizData
  | obj (fields : List (String × JLit)) : VizData
deriving DecidableEq, Repr

/-- `Array.isArray` on a `VizData` value. -/
def VizData.isArray : VizData → Bool
  | VizData.arr _ => true
  | _ => false

/-- Optional key-mapping configuration of a visualization payload. -/
structure VizConfig where
  xKey : Option String := none
  yKey : Option String := none
  labelKey : Option String := none
  valueKey : Option String := none
deriving DecidableEq, Repr

/-- The visualization payload attached to a chat message. -/
structure Visualization where
  vtype : ChartType
  data : VizData
  config : Option VizConfig := none
deriving DecidableEq, Repr

/-- A chat message of the provider: identifier, role, content, creation
timestamp (`Date.now()`, modelled as a natural), optional visualization. -/
structure ChatMessage where
  id : String
  role : Role
  content : String
  timestamp : Nat
  visualization : Option Visualization := none
deriving DecidableEq, Repr

/-- The chat session state held by `ChatProvider`: the ordered message log
and the conversation identifier (`null` until assigned). -/
structure ChatState where
  messages : List ChatMessage
  conversationId : Option String
deriving DecidableEq, Repr

/-- `addMessage`: `setMessages((prev) => [...prev, message])`. -/
def addMessage (s : ChatState) (m : ChatMessage) : ChatState :=
  { s with messages := s.messages ++ [m] }

/-- A `Partial<ChatMessage>` patch: each field either absent or present. -/
structure MessagePatch where
  id : Option String := none
  role : Option Role := none
  content : Option String := none
  timestamp : Option Nat := none
  visualization : Option (Option Visualization) := none
deriving DecidableEq, Repr

/-- The spread `{ ...msg, ...patch }`: fields present in the patch replace
the message's fields, absent ones are kept. -/
def mergePatch (m : ChatMessage) (p : MessagePatch) : ChatMessage :=
  { id := p.id.getD m.id
    role := p.role.getD m.role
    content := p.content.getD m.content
    timestamp := p.timestamp.getD m.timestamp
    visualization := p.visualization.getD m.visualization }

/-- `updateMessage`:
`setMessages((prev) => prev.map((msg) => (msg.id === id ? { ...msg, ...patch } : msg)))`. -/
def updateMessage (s : ChatState) (i : String) (p : MessagePatch) : ChatState :=
  { s with
    messages := s.messages.map (fun m => if m.id = i then mergePatch m p else m) }

/-- `clearMessages`: `setMessages([]); setConversationId(null)`. -/
def clearMessages (_s : ChatState) : ChatState :=
  { messages := [], conversationId := none }

/-- JavaScript `a || b` over `string | undefined` operands: `a` wins unless
it is falsy, i.e. `undefined` or the empty string. -/
def jsOr (a b : Option String) : Option String :=
  match a with
  | some s => if s = "" then b else some s
  | none => b

/-- JavaScript falsiness of a `string | undefined` value: `undefined` and
`""` are falsy, every other string is truthy. -/
def isFalsy : Option String → Bool
  | none => true
  | some s => s = ""

/-- Optional chaining `visualization.config?.<field>`. -/
def cfgField (c : Option VizConfig) (f : VizConfig → Option String) : Option String :=
  match c with
  | some cc => f cc
  | none => none

/-- `Object.keys` of a row object. -/
def rowKeys (r : Row) : List String := r.map Prod.fst

/-- The rendering outcomes of `VisualizationPreview`: the
"Visualization data unavailable." placeholder, the
"Cannot determine visualization fields." placeholder, or a chart of the
payload's type driven by the resolved label and value keys. -/
inductive PreviewResult where
  | unavailable : PreviewResult
  | cannotDetermine : PreviewResult
  | chart (t : ChartType) (labelKey : String) (valueKey : String) : PreviewResult
deriving DecidableEq, Repr

/-- `VisualizationPreview` of `components/chat/chat-interface.tsx`:
`data = Array.isArray(visualization.data) ? visualization.data : []`;
empty data renders the unavailable placeholder; otherwise
`labelKey = config?.labelKey || config?.xKey || keys[0]` and
`valueKey = config?.valueKey || config?.yKey || keys.find((key) => key !== labelKey) || keys[0]`,
with the cannot-determine placeholder when either resolved key is falsy. -/
def visualizationPreview (v : Visualization) : PreviewResult :=
  let data : List Row :=
    match v.data with
    | VizData.arr rows => rows
    | _ => []
  match data with
  | [] => PreviewResult.unavailable
  | sample :: _ =>
    let keys := rowKeys sample
    let labelKey := jsOr (cfgField v.config VizConfig.labelKey)
      (jsOr (cfgField v.config VizConfig.xKey) keys.head?)
    let valueKey := jsOr (cfgField v.config VizConfig.valueKey)
      (jsOr (cfgField v.config VizConfig.yKey)
        (jsOr (keys.find? (fun key => some key ≠ labelKey)) keys.head?))
    if isFalsy labelKey || isFalsy valueKey then
      PreviewResult.cannotDetermine
    else
      PreviewResult.chart v.vtype (labelKey.getD "") (valueKey.getD "")

/-- The JSON body of a `POST /api/chat` request:
`{ message: messageText, conversationId }`. -/
structure ChatRequest where
  message : String
  conversationId : Option String
deriving DecidableEq, Repr

/-- The parsed JSON body of a successful `/api/chat` response. -/
structure ChatResponseData where
  response : Option String := none
  conversationId : Option String := none
  visualization : Option Visualization := none
deriving DecidableEq, Repr

/-- Outcome of the chat `fetch`: a rejection (network error), or a
response with its status and parsed body. -/
inductive ChatFetchOutcome where
  | error
  | response (status : Nat) (data : ChatResponseData)
deriving DecidableEq, Repr

/-- The fixed apologetic assistant message text of the catch block. -/
def chatErrorText : String :=
  "Sorry, I'm having trouble connecting to the backend. Please check if the API server is running."

/-- The user message appended by `handleSendMessage`
(`id: Date.now().toString()`). -/
def userMessage (now : Nat) (txt : String) : ChatMessage :=
  { id := toString now, role := Role.user, content := txt, timestamp := now }

/-- The fallback assistant message appended by the catch block
(`id: (Date.now() + 1).toString()`). -/
def chatErrorMessage (now : Nat) : ChatMessage :=
  { id := toString (now + 1), role := Role.ai, content := chatErrorText, timestamp := now }

/-- `handleSendMessage` of `components/chat/chat-interface.tsx`, as a
function of the session state, the clock (`Date.now()`), the resolved
message text (`text || input.trim()`), and the backend outcome. Returns
the new session state and the request issued, if any:
guard on empty text; append the user message; POST
`{ message, conversationId }`; on `response.ok` adopt a truthy
`data.conversationId` and append the assistant message with
`data.response || 'No response from AI'` and `data.visualization`;
on a non-ok response or rejection append the fixed apology message. -/
def handleSendMessage (s : ChatState) (now : Nat) (txt : String)
    (outcome : ChatFetchOutcome) : ChatState × Option ChatRequest :=
  if txt = "" then (s, none)
  else
    let s1 := addMessage s (userMessage now txt)
    let req : ChatRequest := { message := txt, conversationId := s.conversationId }
    match outcome with
    | ChatFetchOutcome.error => (addMessage s1 (chatErrorMessage now), some req)
    | ChatFetchOutcome.response status data =>
      if respOk status then
        let s2 :=
          if isFalsy data.conversationId then s1
          else { s1 with conversationId := data.conversationId }
        let aiMsg : ChatMessage :=
          { id := toString (now + 1)
            role := Role.ai
            content := (jsOr data.response (some "No response from AI")).getD ""
            timestamp := now
            visualization := data.visualization }
        (addMessage s2 aiMsg, some req)
      else (addMessage s1 (chatErrorMessage now), some req)

/-- Lifecycle phase of the report-generation client (spec §4.2). -/
inductive ReportPhase where
  | idle
  | generating
  | succeeded
  | failed
deriving DecidableEq, Repr

/-- State of the report-generation client. -/
structure ReportState where
  phase : ReportPhase
  error : Option String := none
deriving DecidableEq, Repr

/-- The JSON body of a `POST /api/report/generate` request. -/
structure ReportRequest where
  query : String
  format : String
deriving DecidableEq, Repr

/-- JavaScript `String.prototype.trim`: strip leading and trailing
whitespace (modelled over the string's character list so that it computes
by kernel reduction). -/
def jsTrim (s : String) : String :=
  String.mk ((s.data.dropWhile Char.isWhitespace).reverse.dropWhile Char.isWhitespace).reverse

/-- Modelled from the spec: `generateReport` of the `useReportGeneration`
hook (`lib/api-client`), whose source is not among the provided files.
Spec §4.2: the transition `idle → generating` is "triggered by a generate
call with a non-empty query string and a requested output format; fails
immediately (no transition) if the query is empty after trimming
whitespace". Returns the new state and the network requests issued. -/
def generateReport (st : ReportState) (query format : String) :
    ReportState × List ReportRequest :=
  if jsTrim query = "" then (st, [])
  else ({ phase := ReportPhase.generating, error := none },
        [{ query := query, format := format }])

/-- `handleGenerate` of `app/reports/page.tsx`: return while `generating`;
build the query; `if (!query.trim()) return`; otherwise call
`generateReport({ query, format: "pdf" })`. The query string (the result
of `buildQuery`) is a parameter here. -/
def handleGenerate (generating : Bool) (query : String) (st : ReportState) :
    ReportState × List ReportRequest :=
  if generating then (st, [])
  else if jsTrim query = "" then (st, [])
  else generateReport st query "pdf"

/-- The initial provider state: one greeting message (`id: "1"`, role
`"ai"`, mount-time timestamp) and a `null` conversation identifier. -/
def initialChatState (now : Nat) : ChatState :=
  { messages :=
      [{ id := "1"
         role := Role.ai
         content := "Hello! I'm your AI data analyst. How can I help you today? Try asking \"Show me sales by country\" or \"Generate a report\"."
         timestamp := now }]
    conversationId := none }


/-- C1: the table-information proxy route passes a 2xx backend JSON body
through unchanged (status 200), and on a non-2xx backend status or a
failed fetch returns exactly `{ error: 'Failed to fetch table information' }`
with status 500, never the backend's own failure code. -/
theorem tableInfoGET_spec :
    (∀ status body, respOk status = true →
      tableInfoGET (FetchOutcome.success status body) = (200, body)) ∧
    (∀ status body, respOk status = false →
      tableInfoGET (FetchOutcome.success status body) = (500, tableInfoErrorBody)) ∧
    tableInfoGET FetchOutcome.failure = (500, tableInfoErrorBody) := by
  refine ⟨?_, ?_, rfl⟩ <;> intro status body h <;> simp [tableInfoGET, h]

/-- Witness for C1: a backend 503 yields the fixed envelope with status
500, and a backend 200 body is passed through. -/
theorem tableInfoGET_spec_witness :
    tableInfoGET (FetchOutcome.success 503 Json.null) = (500, tableInfoErrorBody) ∧
    tableInfoGET (FetchOutcome.success 200 (Json.str "ok")) = (200, Json.str "ok") :=
  ⟨tableInfoGET_spec.2.1 503 Json.null (by decide),
   tableInfoGET_spec.1 200 (Json.str "ok") (by decide)⟩

/-- C4: `clearMessages` yields an empty log and an unset conversation
identifier, regardless of the prior state. -/
theorem clearMessages_spec (s : ChatState) :
    (clearMessages s).messages = [] ∧ (clearMessages s).conversationId = none :=
  ⟨rfl, rfl⟩

/-- C5: an empty visualization data array renders the unavailable
placeholder, for every chart type and configuration, without any key
resolution and without failure. -/
theorem emptyData_unavailable (t : ChartType) (c : Option VizConfig) :
    visualizationPreview { vtype := t, data := VizData.arr [], config := c }
      = PreviewResult.unavailable := rfl

/-- C10: a visualization payload whose `data` field is not an array is
treated as an empty data set and renders the unavailable placeholder. -/
theorem nonArrayData_unavailable (v : Visualization) (h : v.data.isArray = false) :
    visualizationPreview v = PreviewResult.unavailable := by
  cases hd : v.data <;>
    simp_all [VizData.isArray, visualizationPreview, hd]

/-- Witness for C10: a `null` data field renders the unavailable
placeholder. -/
theorem nonArrayData_unavailable_witness :
    visualizationPreview { vtype := ChartType.pie, data := VizData.null, config := none }
      = PreviewResult.unavailable :=
  nonArrayData_unavailable
    { vtype := ChartType.pie, data := VizData.null, config := none } rfl

/-- C7: a generate call whose query is empty after trimming whitespace
issues no network request and leaves the report-generation state
unchanged, whatever that state and the `generating` flag are. -/
theorem emptyQuery_noRequest (generating : Bool) (query : String)
    (st : ReportState) (h : jsTrim query = "") :
    handleGenerate generating query st = (st, []) := by
  cases generating <;> simp [handleGenerate, h]

/-- Witness for C7: a whitespace-only query from the idle state issues no
request and stays idle. -/
theorem emptyQuery_noRequest_witness :
    handleGenerate false "   " { phase := ReportPhase.idle } =
      ({ phase := ReportPhase.idle }, []) :=
  emptyQuery_noRequest false "   " { phase := ReportPhase.idle } (by decide)

/-- A sequence of `addMessage` calls, as a fold over the state. -/
lemma foldl_addMessage_messages (s : ChatState) (ms : List ChatMessage) :
    (ms.foldl addMessage s).messages = s.messages ++ ms := by
  induction ms generalizing s with
  | nil => simp
  | cons m ms ih =>
      rw [List.foldl_cons, ih (addMessage s m)]
      simp [addMessage]

/-- C2 (counterexample): `addMessage` never deduplicates, so appending two
messages that carry the same identifier leaves that identifier in the log
twice — the uniqueness half of the claim fails for such call sequences. -/
theorem addMessage_duplicate_id_counterexample :
    ¬ ((([{ id := "1", role := Role.ai, content := "x", timestamp := 0 },
          { id := "1", role := Role.ai, content := "y", timestamp := 1 }].foldl
            addMessage { messages := [], conversationId := none }).messages.map
        (fun m => m.id)).count "1" ≤ 1) := by decide

/-- C2 (amended): a sequence of `addMessage` calls extends the log with
the appended messages exactly in call order; and provided the prior log's
identifiers together with the appended identifiers are pairwise distinct,
every identifier appears at most once in the resulting log. -/
theorem addMessage_order_unique (s : ChatState) (ms : List ChatMessage) :
    (ms.foldl addMessage s).messages = s.messages ++ ms ∧
    ((((s.messages ++ ms).map (fun m => m.id)).Nodup) →
      ∀ i : String,
        (((ms.foldl addMessage s).messages).map (fun m => m.id)).count i ≤ 1) := by
  refine ⟨foldl_addMessage_messages s ms, ?_⟩
  intro hnd i
  rw [foldl_addMessage_messages s ms]
  exact List.nodup_iff_count_le_one.mp hnd i

/-- Witness for C2: appending two fresh messages to the initial provider
state yields the log in call order with no repeated identifier. -/
theorem addMessage_order_unique_witness :
    (([{ id := "2", role := Role.user, content := "hi", timestamp := 3 },
       { id := "3", role := Role.ai, content := "yo", timestamp := 4 }].foldl
        addMessage (initialChatState 0)).messages
      = (initialChatState 0).messages ++
        [{ id := "2", role := Role.user, content := "hi", timestamp := 3 },
         { id := "3", role := Role.ai, content := "yo", timestamp := 4 }]) ∧
    ((([{ id := "2", role := Role.user, content := "hi", timestamp := 3 },
        { id := "3", role := Role.ai, content := "yo", timestamp := 4 }].foldl
         addMessage (initialChatState 0)).messages.map
       (fun m => m.id)).count "2" ≤ 1) := by
  have h := addMessage_order_unique (initialChatState 0)
    [{ id := "2", role := Role.user, content := "hi", timestamp := 3 },
     { id := "3", role := Role.ai, content := "yo", timestamp := 4 }]
  exact ⟨h.1, h.2 (by decide) "2"⟩

/-- C9: `updateMessage` keeps the conversation identifier, the length and
the order of the log; at every position the message is merged with the
patch exactly when its identifier matches, and is untouched otherwise; and
when no message matches, the whole state is unchanged. -/
theorem updateMessage_spec (s : ChatState) (i : String) (p : MessagePatch) :
    (updateMessage s i p).conversationId = s.conversationId ∧
    (updateMessage s i p).messages.length = s.messages.length ∧
    (∀ k (hk : k < s.messages.length) (hk2 : k < (updateMessage s i p).messages.length),
      (updateMessage s i p).messages.get ⟨k, hk2⟩ =
        (if (s.messages.get ⟨k, hk⟩).id = i
         then mergePatch (s.messages.get ⟨k, hk⟩) p
         else s.messages.get ⟨k, hk⟩)) ∧
    ((∀ m, m ∈ s.messages → m.id ≠ i) → updateMessage s i p = s) := by
  refine ⟨rfl, by simp [updateMessage], ?_, ?_⟩
  · intro k hk hk2
    simp [updateMessage, List.get_eq_getElem, List.getElem_map]
  · intro h
    have hmap : s.messages.map (fun m => if m.id = i then mergePatch m p else m)
        = s.messages := by
      conv_rhs => rw [← List.map_id s.messages]
      exact List.map_congr_left (fun m hm => by simp [h m hm])
    simp [updateMessage, hmap]

/-- Witness for C9: patching the greeting message keeps the log length,
and patching an absent identifier is a no-op on the whole state. -/
theorem updateMessage_spec_witness :
    ((updateMessage (initialChatState 0) "1" { content := some "edited" }).messages.length
        = (initialChatState 0).messages.length) ∧
    (updateMessage (initialChatState 0) "9" { content := some "edited" }
        = initialChatState 0) := by
  refine ⟨(updateMessage_spec (initialChatState 0) "1" { content := some "edited" }).2.1, ?_⟩
  exact (updateMessage_spec (initialChatState 0) "9"
    { content := some "edited" }).2.2.2 (by decide)

/-- A chat backend request that failed: the fetch rejected, or the
response status is not ok (so `handleSendMessage` throws into its catch
block). -/
def chatFetchFailed (outcome : ChatFetchOutcome) : Prop :=
  outcome = ChatFetchOutcome.error ∨
    ∃ status data, outcome = ChatFetchOutcome.response status data ∧ respOk status = false

/-- C6: when the chat backend request fails (network error or non-2xx
response), the session log becomes the prior log followed by the user
message and then the fixed apologetic assistant message — the raw error is
never surfaced, and the user message remains in the log. -/
theorem handleSendMessage_failure (s : ChatState) (now : Nat) (txt : String)
    (outcome : ChatFetchOutcome) (htxt : txt ≠ "")
    (hfail : chatFetchFailed outcome) :
    (handleSendMessage s now txt outcome).fst.messages
        = s.messages ++ [userMessage now txt, chatErrorMessage now] ∧
    userMessage now txt ∈ (handleSendMessage s now txt outcome).fst.messages ∧
    (chatErrorMessage now).role = Role.ai ∧
    (chatErrorMessage now).content = chatErrorText := by
  have hmsgs : (handleSendMessage s now txt outcome).fst.messages
      = s.messages ++ [userMessage now txt, chatErrorMessage now] := by
    rcases hfail with h | ⟨status, data, h, hko⟩
    · subst h
      simp [handleSendMessage, htxt, addMessage, List.append_assoc]
    · subst h
      simp [handleSendMessage, htxt, hko, addMessage, List.append_assoc]
  refine ⟨hmsgs, ?_, rfl, rfl⟩
  rw [hmsgs]
  simp

/-- Witness for C6: a 503 chat response appends the user message and the
fixed apology to the initial provider state. -/
theorem handleSendMessage_failure_witness :
    ((handleSendMessage (initialChatState 0) 5 "hi"
        (ChatFetchOutcome.response 503 {})).fst.messages
      = (initialChatState 0).messages ++ [userMessage 5 "hi", chatErrorMessage 5]) ∧
    userMessage 5 "hi" ∈ (handleSendMessage (initialChatState 0) 5 "hi"
        (ChatFetchOutcome.response 503 {})).fst.messages ∧
    (chatErrorMessage 5).role = Role.ai ∧
    (chatErrorMessage 5).content = chatErrorText :=
  handleSendMessage_failure (initialChatState 0) 5 "hi"
    (ChatFetchOutcome.response 503 {}) (by decide)
    (Or.inr ⟨503, {}, rfl, by decide⟩)

/-- C8 (counterexample): `if (data.conversationId)` is a truthiness test,
so a conversation identifier that is present in a successful response but
equal to the empty string is not adopted — the prior identifier is kept. -/
theorem conversationId_adoption_counterexample :
    ((handleSendMessage { messages := [], conversationId := some "old" } 1 "hi"
        (ChatFetchOutcome.response 200
          { conversationId := some "" })).fst.conversationId = some "old") ∧
    ¬ ((handleSendMessage { messages := [], conversationId := some "old" } 1 "hi"
        (ChatFetchOutcome.response 200
          { conversationId := some "" })).fst.conversationId = some "") := by
  exact ⟨by decide, by decide⟩

/-- C8 (amended): every send issues the request with the current
conversation identifier; on a successful response the returned identifier
is adopted when present and non-empty, and the identifier is kept
unchanged when it is absent, empty, or the request failed; `addMessage`
and `updateMessage` never change the identifier, and `clearMessages`
unsets it. -/
theorem conversationId_lifecycle (s : ChatState) (now : Nat) (txt : String)
    (outcome : ChatFetchOutcome) (htxt : txt ≠ "") :
    ((handleSendMessage s now txt outcome).snd
        = some { message := txt, conversationId := s.conversationId }) ∧
    (∀ status data cid, outcome = ChatFetchOutcome.response status data →
        respOk status = true → data.conversationId = some cid → cid ≠ "" →
        (handleSendMessage s now txt outcome).fst.conversationId = some cid) ∧
    (∀ status data, outcome = ChatFetchOutcome.response status data →
        respOk status = true → data.conversationId = none →
        (handleSendMessage s now txt outcome).fst.conversationId = s.conversationId) ∧
    (∀ status data, outcome = ChatFetchOutcome.response status data →
        respOk status = true → data.conversationId = some "" →
        (handleSendMessage s now txt outcome).fst.conversationId = s.conversationId) ∧
    (chatFetchFailed outcome →
        (handleSendMessage s now txt outcome).fst.conversationId = s.conversationId) ∧
    (∀ m, (addMessage s m).conversationId = s.conversationId) ∧
    (∀ i p, (updateMessage s i p).conversationId = s.conversationId) ∧
    (clearMessages s).conversationId = none := by
  refine ⟨?_, ?_, ?_, ?_, ?_, fun m => rfl, fun i p => rfl, rfl⟩
  · rcases outcome with _ | ⟨status, data⟩
    · simp [handleSendMessage, htxt]
    · rcases h : respOk status <;> simp [handleSendMessage, htxt, h]
  · intro status data cid ho hok hcid hne
    subst ho
    simp [handleSendMessage, htxt, hok, hcid, isFalsy, hne, addMessage]
  · intro status data ho hok hcid
    subst ho
    simp [handleSendMessage, htxt, hok, hcid, isFalsy, addMessage]
  · intro status data ho hok hcid
    subst ho
    simp [handleSendMessage, htxt, hok, hcid, isFalsy, addMessage]
  · intro hfail
    rcases hfail with h | ⟨status, data, h, hko⟩
    · subst h
      simp [handleSendMessage, htxt, addMessage]
    · subst h
      simp [handleSendMessage, htxt, hko, addMessage]

/-- Witness for C8: a successful response carrying identifier `"c9"`
adopts it, the request carried the prior (unset) identifier, and clearing
unsets the identifier. -/
theorem conversationId_lifecycle_witness :
    ((handleSendMessage (initialChatState 0) 2 "hey"
        (ChatFetchOutcome.response 200 { conversationId := some "c9" })).snd
      = some { message := "hey", conversationId := none }) ∧
    ((handleSendMessage (initialChatState 0) 2 "hey"
        (ChatFetchOutcome.response 200
          { conversationId := some "c9" })).fst.conversationId = some "c9") ∧
    (clearMessages (initialChatState 0)).conversationId = none := by
  have h := conversationId_lifecycle (initialChatState 0) 2 "hey"
    (ChatFetchOutcome.response 200 { conversationId := some "c9" }) (by decide)
  exact ⟨h.1, h.2.1 200 { conversationId := some "c9" } "c9" rfl (by decide) rfl
    (by decide), h.2.2.2.2.2.2.2⟩

/-- C3 (counterexample): with no configuration and first-row keys
`["a", ""]`, the claimed value field is the first other key `""`, but the
`||` chain treats the found empty-string key as falsy and falls back to
`keys[0]`, so the code resolves the value field to `"a"` instead. -/
theorem fieldResolution_counterexample :
    (visualizationPreview
        { vtype := ChartType.bar
          data := VizData.arr [[("a", JLit.num 1), ("", JLit.num 2)]]
          config := none }
      = PreviewResult.chart ChartType.bar "a" "a") ∧
    ¬ (visualizationPreview
        { vtype := ChartType.bar
          data := VizData.arr [[("a", JLit.num 1), ("", JLit.num 2)]]
          config := none }
      = PreviewResult.chart ChartType.bar "a" "") :=
  ⟨by decide, by decide⟩

/-- C3 (amended): for every non-empty row list with no explicit field
mapping, provided the first row has at least one key and none of its keys
is the empty string, resolution selects the first key as the category
field and the first other key not equal to it as the value field, falling
back to the category field itself when no other key exists. -/
theorem fieldResolution_default (v : Visualization) (r : Row) (rest : List Row)
    (k0 : String) (ks : List String)
    (hdata : v.data = VizData.arr (r :: rest))
    (hkeys : rowKeys r = k0 :: ks)
    (hcfg : cfgField v.config VizConfig.labelKey = none ∧
            cfgField v.config VizConfig.xKey = none ∧
            cfgField v.config VizConfig.valueKey = none ∧
            cfgField v.config VizConfig.yKey = none)
    (hnz : ∀ k ∈ k0 :: ks, k ≠ "") :
    visualizationPreview v =
      PreviewResult.chart v.vtype k0 ((ks.find? (fun k => k ≠ k0)).getD k0) := by
  obtain ⟨hc1, hc2, hc3, hc4⟩ := hcfg
  have hk0 : k0 ≠ "" := hnz k0 (by simp)
  simp only [visualizationPreview, hdata, hkeys, hc1, hc2, hc3, hc4, jsOr,
    List.head?_cons, List.find?_cons]
  have hpred : (fun key => decide (some key ≠ some k0)) = (fun key => decide (key ≠ k0)) := by
    funext key; simp
  simp only [hpred, decide_not, ne_eq, decide_eq_true_eq, Option.some.injEq]
  rcases hF : List.find? (fun key => !decide (key = k0)) ks with _ | kf
  · simp [hF, isFalsy, hk0]
  · have hmem : kf ∈ ks := List.mem_of_find?_eq_some hF
    have hkf : kf ≠ "" := hnz kf (by simp [hmem])
    simp [hF, isFalsy, hk0, hkf]

/-- Witness for C3: the `country`/`sales` rows resolve to category
`country` and value `sales`. -/
theorem fieldResolution_default_witness :
    visualizationPreview
      { vtype := ChartType.bar
        data := VizData.arr [[("country", JLit.str "US"), ("sales", JLit.num 100)],
                             [("country", JLit.str "FR"), ("sales", JLit.num 80)]]
        config := none }
      = PreviewResult.chart ChartType.bar "country" "sales" := by
  have h := fieldResolution_default
    { vtype := ChartType.bar
      data := VizData.arr [[("country", JLit.str "US"), ("sales", JLit.num 100)],
                           [("country", JLit.str "FR"), ("sales", JLit.num 80)]]
      config := none }
    [("country", JLit.str "US"), ("sales", JLit.num 100)]
    [[("country", JLit.str "FR"), ("sales", JLit.num 80)]]
    "country" ["sales"] rfl rfl ⟨rfl, rfl, rfl, rfl⟩ (by decide)
  exact h.trans (by decide)

end DataDash
